import Mathlib

/-!
Shallow embedding of the STTS751 temperature-sensor driver (`stts751.py`).

The driver talks to the device over an I2C bus.  We model the bus as a
register file (`Bus.regs`) together with fault flags saying which
transactions fail (`failStart`, `failRead`, `failWrite`); a driver state
`S` carries the cached attributes of the Python object (`Drv`), the bus,
and the ordered trace of bus transactions issued so far.  Python
exceptions become `Except Err`; every operation returns its result
together with the state at the point of return (also on error, since a
propagating Python exception leaves the side effects performed so far in
place).
-/

set_option maxRecDepth 4000

namespace Stts751

/-- Python exceptions raised by the driver or the bus layer:
`ValueError` (raised by the driver's own argument checks and by
`bytearray.append` on an out-of-range byte) and `PeripheralError`
(raised by the I2C layer). -/
inductive Err where
  | valueError
  | peripheral
  deriving DecidableEq, Repr

/-- Decidable equality for `Except` results, so that concrete runs can be
checked by evaluation. -/
instance {e a : Type} [DecidableEq e] [DecidableEq a] : DecidableEq (Except e a) :=
  fun x y =>
    match x, y with
    | .ok u, .ok v =>
      if h : u = v then .isTrue (by rw [h]) else .isFalse (fun hc => h (Except.ok.inj hc))
    | .error u, .error v =>
      if h : u = v then .isTrue (by rw [h]) else .isFalse (fun hc => h (Except.error.inj hc))
    | .ok u, .error v => .isFalse (fun hc => Except.noConfusion hc)
    | .error u, .ok v => .isFalse (fun hc => Except.noConfusion hc)

/-- One bus transaction: a single-register read (`port.write_read(addr, 1)`)
or a single-byte register write (`port.write(bytearray([addr, data]))`). -/
inductive Txn where
  | read (addr : Nat)
  | write (addr : Nat) (data : Nat)
  deriving DecidableEq, Repr

/-- Does this transaction write register `r`? -/
def Txn.writesTo : Txn → Nat → Bool
  | .read _, _ => false
  | .write a _, r => a == r

/-- The I2C bus / device model: current register contents plus fault
flags describing which transactions fail with `PeripheralError`. -/
structure Bus where
  regs : Nat → Nat
  failStart : Bool
  failRead : Nat → Bool
  failWrite : Nat → Bool

/-- Store `data` in register `addr`. -/
def Bus.store (b : Bus) (addr data : Nat) : Bus :=
  { b with regs := fun a => if a = addr then data else b.regs a }

-- Constants from stts751.py (names kept).

def STTS751_RES_9 : Nat := 0x08
def STTS751_RES_10 : Nat := 0x00
def STTS751_RES_11 : Nat := 0x04
def STTS751_RES_12 : Nat := 0x0c

-- ODR_AVAILABLE is a dict in the source; we keep the individual codes as
-- named constants and the dict's value list (in insertion order) for the
-- membership test `odr not in [x for x in ODR_AVAILABLE.values()]`.
def ODR_OFF : Nat := 0x80
def ODR_ONE_SHOT : Nat := 0x90
def ODR_62mHz5 : Nat := 0x00
def ODR_125mHz : Nat := 0x01
def ODR_250mHz : Nat := 0x02
def ODR_500mHz : Nat := 0x03
def ODR_1Hz : Nat := 0x04
def ODR_2Hz : Nat := 0x05
def ODR_4Hz : Nat := 0x06
def ODR_8Hz : Nat := 0x07
def ODR_16Hz : Nat := 0x08
def ODR_32Hz : Nat := 0x09

def ODR_AVAILABLE : List Nat :=
  [ODR_OFF, ODR_ONE_SHOT, ODR_62mHz5, ODR_125mHz, ODR_250mHz, ODR_500mHz,
   ODR_1Hz, ODR_2Hz, ODR_4Hz, ODR_8Hz, ODR_16Hz, ODR_32Hz]

def REG_TEMPERATURE_H : Nat := 0x00
def REG_STATUS : Nat := 0x01
def REG_TEMPERATURE_L : Nat := 0x02
def REG_CONFIGURATION : Nat := 0x03
def REG_CONV_RATE : Nat := 0x04
def REG_HIGH_LIMIT_H : Nat := 0x05
def REG_HIGH_LIMIT_L : Nat := 0x06
def REG_LOW_LIMIT_H : Nat := 0x07
def REG_LOW_LIMIT_L : Nat := 0x08
def REG_ONESHOT : Nat := 0x0f
def REG_THERM : Nat := 0x20
def REG_THERM_HYSTERESIS : Nat := 0x21
def REG_SMBUS_TIMEOUT : Nat := 0x22
def REG_PRODUCT_ID : Nat := 0xfd
def REG_MFG_ID : Nat := 0xfe
def REG_REVISION_ID : Nat := 0xff

/-- The cached attributes set on `self` by the Python class. -/
structure Drv where
  odr : Nat
  resolution : Nat
  low_th : Int
  high_th : Int
  int_enable : Bool
  therm_limit : Int
  therm_hyst_limit : Int
  timeout : Bool
  deriving DecidableEq, Repr

/-- Full driver state: cached attributes, bus, and transaction trace. -/
structure S where
  drv : Drv
  bus : Bus
  trace : List Txn

/-- `self._read(addr, 1)[0]`: issues a write-read transaction; on bus
failure the I2C layer raises `PeripheralError`. -/
def readReg (s : S) (addr : Nat) : Except Err Nat × S :=
  let s1 := { s with trace := s.trace ++ [Txn.read addr] }
  if s.bus.failRead addr then (.error .peripheral, s1)
  else (.ok (s.bus.regs addr), s1)

/-- `self._write(addr, data)`: builds `bytearray([addr, data])` and writes
it.  `bytearray.append` raises `ValueError` when `data` is outside
`range(0, 256)` (this happens before any bus traffic); otherwise the bus
transaction is issued and may raise `PeripheralError`. -/
def writeReg (s : S) (addr : Nat) (data : Int) : Except Err Unit × S :=
  if data < 0 ∨ 255 < data then (.error .valueError, s)
  else
    let s1 := { s with trace := s.trace ++ [Txn.write addr data.toNat] }
    if s.bus.failWrite addr then (.error .peripheral, s1)
    else (.ok (), { s1 with bus := s1.bus.store addr data.toNat })

/-- `_set_resolution(nbit)`: read the configuration register, OR the
resolution bits in, write it back; any exception is caught and turned
into a `False` return value. -/
def set_resolution (s : S) (nbit : Nat) : Bool × S :=
  match readReg s REG_CONFIGURATION with
  | (.error _, s1) => (false, s1)
  | (.ok conf, s1) =>
    match writeReg s1 REG_CONFIGURATION (conf ||| nbit : Nat) with
    | (.error _, s2) => (false, s2)
    | (.ok _, s2) => (true, s2)

/-- `_set_odr(odr)`: write the low nibble of the rate code to the
conversion-rate register, mirror bit 7 of the rate code into bit 1 of the
configuration register, and for the one-shot code also write the 0xAA
trigger byte; any exception is caught and turned into `False`. -/
def set_odr (s : S) (odr : Nat) : Bool × S :=
  match readReg s REG_CONV_RATE with
  | (.error _, s1) => (false, s1)
  | (.ok _, s1) =>
    match writeReg s1 REG_CONV_RATE (odr &&& 0x0F : Nat) with
    | (.error _, s2) => (false, s2)
    | (.ok _, s2) =>
      match readReg s2 REG_CONFIGURATION with
      | (.error _, s3) => (false, s3)
      | (.ok conf, s3) =>
        let conf2 : Nat :=
          if (odr &&& 0x80) >>> 7 ≠ 0 then conf ||| 0x02 else conf &&& 0xFD
        match writeReg s3 REG_CONFIGURATION conf2 with
        | (.error _, s4) => (false, s4)
        | (.ok _, s4) =>
          if odr = ODR_ONE_SHOT then
            match writeReg s4 REG_ONESHOT 0xAA with
            | (.error _, s5) => (false, s5)
            | (.ok _, s5) => (true, s5)
          else (true, s4)

/-- `enable(odr, resolution)`: validate the rate code, short-circuit when
both arguments equal the cached values, reject the forbidden
rate/resolution combinations, then perform the two sub-writes and update
the cache only if both succeeded.  Raises `ValueError` on validation
failure, otherwise returns the Boolean success flag. -/
def enable (s : S) (odr resolution : Nat) : Except Err Bool × S :=
  if odr ∉ ODR_AVAILABLE then (.error .valueError, s)
  else if odr = s.drv.odr ∧ resolution = s.drv.resolution then (.ok true, s)
  else if odr = ODR_16Hz ∧ resolution = STTS751_RES_12 then (.error .valueError, s)
  else if odr = ODR_32Hz ∧ (resolution = STTS751_RES_12 ∨ resolution = STTS751_RES_11) then
    (.error .valueError, s)
  else
    match set_resolution s resolution with
    | (false, s1) => (.ok false, s1)
    | (true, s1) =>
      match set_odr s1 odr with
      | (false, s2) => (.ok false, s2)
      | (true, s2) =>
        (.ok true, { s2 with drv := { s2.drv with odr := odr, resolution := resolution } })

/-- `disable()`: no-op if the cached rate is already OFF, otherwise set
the rate to OFF and update the cache on success. -/
def disable (s : S) : Bool × S :=
  if s.drv.odr = ODR_OFF then (true, s)
  else
    match set_odr s ODR_OFF with
    | (false, s1) => (false, s1)
    | (true, s1) => (true, { s1 with drv := { s1.drv with odr := ODR_OFF } })

/-- The status record returned by `get_status` (dict keys in source
order: busy, t_low, t_high, therm). -/
structure Status where
  busy : Bool
  t_low : Bool
  t_high : Bool
  therm : Bool
  deriving DecidableEq, Repr

/-- The flag decoding of `get_status`, written exactly as the Python
expressions parse: in Python `>>` binds tighter than `&`, so
`status & 0x80 >> 7` is `status & (0x80 >> 7)`, and a flag is `True`
iff the resulting integer is non-zero (truthiness). -/
def get_status_decode (status : Nat) : Status :=
  { busy := status &&& (0x80 >>> 7) ≠ 0
    t_low := status &&& (0x40 >>> 6) ≠ 0
    t_high := status &&& (0x20 >>> 5) ≠ 0
    therm := status &&& 0x01 ≠ 0 }

/-- `get_status()`: one read of the status register, then the flag
decoding above. -/
def get_status (s : S) : Except Err Status × S :=
  match readReg s REG_STATUS with
  | (.error e, s1) => (.error e, s1)
  | (.ok status, s1) => (.ok (get_status_decode status), s1)

/-- `get_sensor_id()`: three reads, returning the triple. -/
def get_sensor_id (s : S) : Except Err (Nat × Nat × Nat) × S :=
  match readReg s REG_PRODUCT_ID with
  | (.error e, s1) => (.error e, s1)
  | (.ok product_id, s1) =>
    match readReg s1 REG_MFG_ID with
    | (.error e, s2) => (.error e, s2)
    | (.ok manufacturer_id, s2) =>
      match readReg s2 REG_REVISION_ID with
      | (.error e, s3) => (.error e, s3)
      | (.ok revision_id, s3) => (.ok (product_id, manufacturer_id, revision_id), s3)

/-- The sign fix-up of `get_temp`:
`if ((tmp_raw & 0x8000) >> 15): tmp_raw = -(0x8000 - (0x7fff & tmp_raw))`,
with Python truthiness (non-zero) as the condition. -/
def tmp_signed (tmp_raw : Nat) : Int :=
  if (tmp_raw &&& 0x8000) >>> 15 ≠ 0 then -(0x8000 - ((0x7fff &&& tmp_raw : Nat) : Int))
  else (tmp_raw : Int)

/-- Result of `get_temp`: a Python `int` when `raw` is requested, else a
float `tmp_raw / 256.0`.  The quotient of an integer below 2^15 in
magnitude by 256 is exactly representable in binary floating point, so we
model the float result as the exact rational. -/
inductive Temp where
  | raw (v : Nat)
  | celsius (v : ℚ)
  deriving DecidableEq, Repr

/-- `get_temp(raw)`: read the high then the low temperature byte, combine
as `(tmp_h << 8) + tmp_l`, return that verbatim when `raw`, else apply
the sign fix-up and divide by 256.0. -/
def get_temp (s : S) (raw : Bool) : Except Err Temp × S :=
  match readReg s REG_TEMPERATURE_H with
  | (.error e, s1) => (.error e, s1)
  | (.ok tmp_h, s1) =>
    match readReg s1 REG_TEMPERATURE_L with
    | (.error e, s2) => (.error e, s2)
    | (.ok tmp_l, s2) =>
      let tmp_raw : Nat := (tmp_h <<< 8) + tmp_l
      if raw then (.ok (.raw tmp_raw), s2)
      else (.ok (.celsius ((tmp_signed tmp_raw : ℚ) / 256)), s2)

/-- Python's bitwise AND of an arbitrary (possibly negative) `int` with a
non-negative mask below 2^16.  On two's-complement integers such an AND
depends only on the low 16 bits of `x`, i.e. on `x mod 2^16`, which is
what `Int.emod` computes for the positive modulus. -/
def pyAnd (x : Int) (mask : Nat) : Nat :=
  ((x % 65536).toNat) &&& mask

/-- Low byte of the threshold encoding: `rl = raw & 0x00FF`. -/
def threshold_rl (raw : Int) : Nat := pyAnd raw 0x00FF

/-- High byte of the threshold encoding: `rh = (raw & 0xFF00) >> 8`. -/
def threshold_rh (raw : Int) : Nat := pyAnd raw 0xFF00 >>> 8

/-- `set_low_temp_threshold(level)`: `raw = level * 256`, split into low
and high bytes, write low then high limit registers, then update the
cached `low_th` (the cache update is skipped when a write raises). -/
def set_low_temp_threshold (s : S) (level : Int) : Except Err Unit × S :=
  let raw : Int := level * 256
  match writeReg s REG_LOW_LIMIT_L (threshold_rl raw) with
  | (.error e, s1) => (.error e, s1)
  | (.ok _, s1) =>
    match writeReg s1 REG_LOW_LIMIT_H (threshold_rh raw) with
    | (.error e, s2) => (.error e, s2)
    | (.ok _, s2) => (.ok (), { s2 with drv := { s2.drv with low_th := level } })

/-- `set_high_temp_threshold(level)`: same as the low setter but for the
high limit register pair and the cached `high_th`. -/
def set_high_temp_threshold (s : S) (level : Int) : Except Err Unit × S :=
  let raw : Int := level * 256
  match writeReg s REG_HIGH_LIMIT_L (threshold_rl raw) with
  | (.error e, s1) => (.error e, s1)
  | (.ok _, s1) =>
    match writeReg s1 REG_HIGH_LIMIT_H (threshold_rh raw) with
    | (.error e, s2) => (.error e, s2)
    | (.ok _, s2) => (.ok (), { s2 with drv := { s2.drv with high_th := level } })

/-- `set_event_interrupt(enable)`: read the configuration register, then
`conf &= 0b0111111` (a SEVEN-digit literal, 0x3F) when enabling or
`conf |= 0b1000000` (0x40) when disabling, write back, update the cached
flag. -/
def set_event_interrupt (s : S) (enable : Bool) : Except Err Unit × S :=
  match readReg s REG_CONFIGURATION with
  | (.error e, s1) => (.error e, s1)
  | (.ok conf, s1) =>
    let conf2 : Nat := if enable then conf &&& 0b0111111 else conf ||| 0b1000000
    match writeReg s1 REG_CONFIGURATION conf2 with
    | (.error e, s2) => (.error e, s2)
    | (.ok _, s2) => (.ok (), { s2 with drv := { s2.drv with int_enable := enable } })

/-- `set_therm_limit(level)`: range-check `[-127, 127]` (raising
`ValueError` outside it), write the value to the therm register, update
the cache. -/
def set_therm_limit (s : S) (level : Int) : Except Err Unit × S :=
  if level < -127 ∨ level > 127 then (.error .valueError, s)
  else
    match writeReg s REG_THERM level with
    | (.error e, s1) => (.error e, s1)
    | (.ok _, s1) => (.ok (), { s1 with drv := { s1.drv with therm_limit := level } })

/-- `set_therm_hysteresis_limit(level)`: same shape as `set_therm_limit`
for the hysteresis register and cache field. -/
def set_therm_hysteresis_limit (s : S) (level : Int) : Except Err Unit × S :=
  if level < -127 ∨ level > 127 then (.error .valueError, s)
  else
    match writeReg s REG_THERM_HYSTERESIS level with
    | (.error e, s1) => (.error e, s1)
    | (.ok _, s1) => (.ok (), { s1 with drv := { s1.drv with therm_hyst_limit := level } })

/-- `set_timeout(enable)`: read the SMBus-timeout register, then
`reg &= 0b0111111` (seven digits, 0x3F) to enable or
`reg |= 0b1000000` (0x40) to disable, write back, update the cached
flag. -/
def set_timeout (s : S) (enable : Bool) : Except Err Unit × S :=
  match readReg s REG_SMBUS_TIMEOUT with
  | (.error e, s1) => (.error e, s1)
  | (.ok reg, s1) =>
    let reg2 : Nat := if enable then reg &&& 0b0111111 else reg ||| 0b1000000
    match writeReg s1 REG_SMBUS_TIMEOUT reg2 with
    | (.error e, s2) => (.error e, s2)
    | (.ok _, s2) => (.ok (), { s2 with drv := { s2.drv with timeout := enable } })

/-- The attribute values assigned by `__init__` before any bus traffic. -/
def initDrv : Drv :=
  { odr := ODR_125mHz
    resolution := STTS751_RES_12
    low_th := 1
    high_th := 50
    int_enable := false
    therm_limit := 0
    therm_hyst_limit := 0
    timeout := false }

/-- A fresh state over a given bus with the `__init__` attribute values
and an empty transaction trace. -/
def mkState (b : Bus) : S := { drv := initDrv, bus := b, trace := [] }

/-- `__init__(drvsel, address, clk)`: assign the cached attributes, then
`try: self.port.start() except PeripheralError as e: print(e)` — a start
failure is caught and only printed, so it has no effect on the state and
construction continues.  Then run the fixed initialization sequence; any
exception raised by it propagates out of the constructor (no instance is
returned), while the Boolean returned by `enable` is ignored.  On success
the result is the constructed driver state. -/
def STTS751_init (bus : Bus) : Except Err S :=
  let s0 := mkState bus
  let _started : Except Err Unit :=
    if bus.failStart then .error .peripheral else .ok ()
  match enable s0 s0.drv.odr s0.drv.resolution with
  | (.error e, _) => .error e
  | (.ok _, s1) =>
    match set_low_temp_threshold s1 s1.drv.low_th with
    | (.error e, _) => .error e
    | (.ok _, s2) =>
      match set_high_temp_threshold s2 s2.drv.high_th with
      | (.error e, _) => .error e
      | (.ok _, s3) =>
        match set_event_interrupt s3 true with
        | (.error e, _) => .error e
        | (.ok _, s4) =>
          match set_timeout s4 false with
          | (.error e, _) => .error e
          | (.ok _, s5) =>
            match readReg s5 REG_THERM with
            | (.error e, _) => .error e
            | (.ok t, s6) =>
              let s6a := { s6 with drv := { s6.drv with therm_limit := (t : Int) } }
              match readReg s6a REG_THERM_HYSTERESIS with
              | (.error e, _) => .error e
              | (.ok th, s7) =>
                .ok { s7 with drv := { s7.drv with therm_hyst_limit := (th : Int) } }

/-! ## Which operations touch the cached rate/resolution pair -/

/-- The cached output-data-rate / resolution pair of a driver state. -/
def rateRes (d : Drv) : Nat × Nat := (d.odr, d.resolution)

theorem readReg_drv (s : S) (a : Nat) : ((readReg s a).2).drv = s.drv := by
  unfold readReg
  dsimp only
  split <;> rfl

theorem writeReg_drv (s : S) (a : Nat) (d : Int) : ((writeReg s a d).2).drv = s.drv := by
  unfold writeReg
  split
  · rfl
  · dsimp only
    split <;> rfl

theorem set_resolution_drv (s : S) (n : Nat) : ((set_resolution s n).2).drv = s.drv := by
  unfold set_resolution
  rcases h1 : readReg s REG_CONFIGURATION with ⟨r1, s1⟩
  have e1 := readReg_drv s REG_CONFIGURATION
  rw [h1] at e1
  cases r1 with
  | error e => simpa using e1
  | ok conf =>
    dsimp only
    rcases h2 : writeReg s1 REG_CONFIGURATION (conf ||| n : Nat) with ⟨r2, s2⟩
    have e2 := writeReg_drv s1 REG_CONFIGURATION (conf ||| n : Nat)
    rw [h2] at e2
    cases r2 with
    | error e => simpa using e2.trans e1
    | ok u => simpa using e2.trans e1

theorem set_odr_drv (s : S) (odr : Nat) : ((set_odr s odr).2).drv = s.drv := by
  unfold set_odr
  rcases h1 : readReg s REG_CONV_RATE with ⟨r1, s1⟩
  have e1 := readReg_drv s REG_CONV_RATE
  rw [h1] at e1
  cases r1 with
  | error e => simpa using e1
  | ok cr0 =>
    dsimp only
    rcases h2 : writeReg s1 REG_CONV_RATE (odr &&& 0x0F : Nat) with ⟨r2, s2⟩
    have e2 := writeReg_drv s1 REG_CONV_RATE (odr &&& 0x0F : Nat)
    rw [h2] at e2
    cases r2 with
    | error e => simpa using e2.trans e1
    | ok u =>
      dsimp only
      rcases h3 : readReg s2 REG_CONFIGURATION with ⟨r3, s3⟩
      have e3 := readReg_drv s2 REG_CONFIGURATION
      rw [h3] at e3
      cases r3 with
      | error e => simpa using e3.trans (e2.trans e1)
      | ok conf =>
        dsimp only
        rcases h4 : writeReg s3 REG_CONFIGURATION
            (if (odr &&& 0x80) >>> 7 ≠ 0 then conf ||| 0x02 else conf &&& 0xFD : Nat) with ⟨r4, s4⟩
        have e4 := writeReg_drv s3 REG_CONFIGURATION
            (if (odr &&& 0x80) >>> 7 ≠ 0 then conf ||| 0x02 else conf &&& 0xFD : Nat)
        rw [h4] at e4
        have e4' : s4.drv = s.drv := e4.trans (e3.trans (e2.trans e1))
        cases r4 with
        | error e => simpa using e4'
        | ok u2 =>
          dsimp only
          split
          · rcases h5 : writeReg s4 REG_ONESHOT 0xAA with ⟨r5, s5⟩
            have e5 := writeReg_drv s4 REG_ONESHOT 0xAA
            rw [h5] at e5
            cases r5 with
            | error e => simpa using e5.trans e4'
            | ok u3 => simpa using e5.trans e4'
          · simpa using e4'

theorem set_low_temp_threshold_rateRes (s : S) (level : Int) :
    rateRes ((set_low_temp_threshold s level).2).drv = rateRes s.drv := by
  unfold set_low_temp_threshold
  dsimp only
  rcases h1 : writeReg s REG_LOW_LIMIT_L (threshold_rl (level * 256) : Nat) with ⟨r1, s1⟩
  have e1 := writeReg_drv s REG_LOW_LIMIT_L (threshold_rl (level * 256) : Nat)
  rw [h1] at e1
  have e1' : s1.drv = s.drv := e1
  cases r1 with
  | error e => exact congrArg rateRes e1'
  | ok u =>
    dsimp only
    rcases h2 : writeReg s1 REG_LOW_LIMIT_H (threshold_rh (level * 256) : Nat) with ⟨r2, s2⟩
    have e2 := writeReg_drv s1 REG_LOW_LIMIT_H (threshold_rh (level * 256) : Nat)
    rw [h2] at e2
    have e2' : s2.drv = s.drv := e2.trans e1'
    cases r2 with
    | error e => exact congrArg rateRes e2'
    | ok u2 => simp [rateRes, e2']

theorem set_high_temp_threshold_rateRes (s : S) (level : Int) :
    rateRes ((set_high_temp_threshold s level).2).drv = rateRes s.drv := by
  unfold set_high_temp_threshold
  dsimp only
  rcases h1 : writeReg s REG_HIGH_LIMIT_L (threshold_rl (level * 256) : Nat) with ⟨r1, s1⟩
  have e1 := writeReg_drv s REG_HIGH_LIMIT_L (threshold_rl (level * 256) : Nat)
  rw [h1] at e1
  have e1' : s1.drv = s.drv := e1
  cases r1 with
  | error e => exact congrArg rateRes e1'
  | ok u =>
    dsimp only
    rcases h2 : writeReg s1 REG_HIGH_LIMIT_H (threshold_rh (level * 256) : Nat) with ⟨r2, s2⟩
    have e2 := writeReg_drv s1 REG_HIGH_LIMIT_H (threshold_rh (level * 256) : Nat)
    rw [h2] at e2
    have e2' : s2.drv = s.drv := e2.trans e1'
    cases r2 with
    | error e => exact congrArg rateRes e2'
    | ok u2 => simp [rateRes, e2']

theorem set_event_interrupt_rateRes (s : S) (en : Bool) :
    rateRes ((set_event_interrupt s en).2).drv = rateRes s.drv := by
  unfold set_event_interrupt
  rcases h1 : readReg s REG_CONFIGURATION with ⟨r1, s1⟩
  have e1 := readReg_drv s REG_CONFIGURATION
  rw [h1] at e1
  have e1' : s1.drv = s.drv := e1
  cases r1 with
  | error e => exact congrArg rateRes e1'
  | ok conf =>
    dsimp only
    rcases h2 : writeReg s1 REG_CONFIGURATION
        (if en then conf &&& 0b0111111 else conf ||| 0b1000000 : Nat) with ⟨r2, s2⟩
    have e2 := writeReg_drv s1 REG_CONFIGURATION
        (if en then conf &&& 0b0111111 else conf ||| 0b1000000 : Nat)
    rw [h2] at e2
    have e2' : s2.drv = s.drv := e2.trans e1'
    cases r2 with
    | error e => exact congrArg rateRes e2'
    | ok u => simp [rateRes, e2']

theorem set_timeout_rateRes (s : S) (en : Bool) :
    rateRes ((set_timeout s en).2).drv = rateRes s.drv := by
  unfold set_timeout
  rcases h1 : readReg s REG_SMBUS_TIMEOUT with ⟨r1, s1⟩
  have e1 := readReg_drv s REG_SMBUS_TIMEOUT
  rw [h1] at e1
  have e1' : s1.drv = s.drv := e1
  cases r1 with
  | error e => exact congrArg rateRes e1'
  | ok reg =>
    dsimp only
    rcases h2 : writeReg s1 REG_SMBUS_TIMEOUT
        (if en then reg &&& 0b0111111 else reg ||| 0b1000000 : Nat) with ⟨r2, s2⟩
    have e2 := writeReg_drv s1 REG_SMBUS_TIMEOUT
        (if en then reg &&& 0b0111111 else reg ||| 0b1000000 : Nat)
    rw [h2] at e2
    have e2' : s2.drv = s.drv := e2.trans e1'
    cases r2 with
    | error e => exact congrArg rateRes e2'
    | ok u => simp [rateRes, e2']

theorem set_therm_limit_rateRes (s : S) (level : Int) :
    rateRes ((set_therm_limit s level).2).drv = rateRes s.drv := by
  unfold set_therm_limit
  split
  · rfl
  · rcases h1 : writeReg s REG_THERM level with ⟨r1, s1⟩
    have e1 := writeReg_drv s REG_THERM level
    rw [h1] at e1
    have e1' : s1.drv = s.drv := e1
    cases r1 with
    | error e => exact congrArg rateRes e1'
    | ok u => simp [rateRes, e1']

theorem set_therm_hysteresis_limit_rateRes (s : S) (level : Int) :
    rateRes ((set_therm_hysteresis_limit s level).2).drv = rateRes s.drv := by
  unfold set_therm_hysteresis_limit
  split
  · rfl
  · rcases h1 : writeReg s REG_THERM_HYSTERESIS level with ⟨r1, s1⟩
    have e1 := writeReg_drv s REG_THERM_HYSTERESIS level
    rw [h1] at e1
    have e1' : s1.drv = s.drv := e1
    cases r1 with
    | error e => exact congrArg rateRes e1'
    | ok u => simp [rateRes, e1']

theorem get_status_drv (s : S) : ((get_status s).2).drv = s.drv := by
  unfold get_status
  rcases h1 : readReg s REG_STATUS with ⟨r1, s1⟩
  have e1 := readReg_drv s REG_STATUS
  rw [h1] at e1
  cases r1 with
  | error e => simpa using e1
  | ok status => simpa using e1

theorem get_sensor_id_drv (s : S) : ((get_sensor_id s).2).drv = s.drv := by
  unfold get_sensor_id
  rcases h1 : readReg s REG_PRODUCT_ID with ⟨r1, s1⟩
  have e1 := readReg_drv s REG_PRODUCT_ID
  rw [h1] at e1
  cases r1 with
  | error e => simpa using e1
  | ok pid =>
    dsimp only
    rcases h2 : readReg s1 REG_MFG_ID with ⟨r2, s2⟩
    have e2 := readReg_drv s1 REG_MFG_ID
    rw [h2] at e2
    have e2' : s2.drv = s.drv := e2.trans e1
    cases r2 with
    | error e => simpa using e2'
    | ok mid =>
      dsimp only
      rcases h3 : readReg s2 REG_REVISION_ID with ⟨r3, s3⟩
      have e3 := readReg_drv s2 REG_REVISION_ID
      rw [h3] at e3
      have e3' : s3.drv = s.drv := e3.trans e2'
      cases r3 with
      | error e => simpa using e3'
      | ok rid => simpa using e3'

theorem get_temp_drv (s : S) (raw : Bool) : ((get_temp s raw).2).drv = s.drv := by
  unfold get_temp
  rcases h1 : readReg s REG_TEMPERATURE_H with ⟨r1, s1⟩
  have e1 := readReg_drv s REG_TEMPERATURE_H
  rw [h1] at e1
  cases r1 with
  | error e => simpa using e1
  | ok tmp_h =>
    dsimp only
    rcases h2 : readReg s1 REG_TEMPERATURE_L with ⟨r2, s2⟩
    have e2 := readReg_drv s1 REG_TEMPERATURE_L
    rw [h2] at e2
    have e2' : s2.drv = s.drv := e2.trans e1
    cases r2 with
    | error e => simpa using e2'
    | ok tmp_l =>
      dsimp only
      split <;> simpa using e2'

/-! ## Concrete buses and states used by the theorems -/

/-- A fully working bus whose registers all read as zero. -/
def goodBus : Bus :=
  { regs := fun _ => 0
    failStart := false
    failRead := fun _ => false
    failWrite := fun _ => false }

/-- A bus whose `start()` raises `PeripheralError` but whose transactions
all succeed. -/
def startFailBus : Bus := { goodBus with failStart := true }

/-- A bus on which every write to the low-limit low byte register fails. -/
def lowLimitFailBus : Bus :=
  { goodBus with failWrite := fun a => a == REG_LOW_LIMIT_L }

/-- A working bus whose status register holds `v`. -/
def statusBus (v : Nat) : Bus :=
  { goodBus with regs := fun a => if a = REG_STATUS then v else 0 }

/-- A working bus whose temperature registers hold `h` (high byte) and
`l` (low byte). -/
def tempBus (h l : Nat) : Bus :=
  { goodBus with
    regs := fun a => if a = REG_TEMPERATURE_H then h
                     else if a = REG_TEMPERATURE_L then l else 0 }

/-- A working bus whose registers all read as `0xC0` (bits 7 and 6 set). -/
def busC0 : Bus := { goodBus with regs := fun _ => 0xC0 }

/-- A working bus whose registers all read as `0x80` (bit 7 set). -/
def bus80 : Bus := { goodBus with regs := fun _ => 0x80 }

/-- The driver state produced by a successful construction over the fully
working bus. -/
def s_init : S :=
  match STTS751_init goodBus with
  | .ok s => s
  | .error _ => mkState goodBus

/-- The transaction trace of a construction run, when it succeeds. -/
def constructionTrace (b : Bus) : Option (List Txn) :=
  (STTS751_init b).toOption.map S.trace

/-! ## C1 -/

/-- C1: the claim says `get_status` decodes busy from bit 7, t_high from
bit 6, t_low from bit 5 and therm from bit 0, so that register value
`0xA1` yields `{busy: true, t_low: false, t_high: false, therm: true}`.
The code instead parses as `status & (0x80 >> 7)` etc. (Python `>>`
binds tighter than `&`), so every flag tests bit 0: on `0xA1` all four
flags are true, and on `0x80` (busy bit set) all four are false. -/
theorem claim1_get_status_all_flags_test_bit0 :
    (get_status (mkState (statusBus 0xA1))).1 =
      .ok { busy := true, t_low := true, t_high := true, therm := true } ∧
    get_status_decode 0xA1 ≠
      { busy := true, t_low := false, t_high := false, therm := true } ∧
    (get_status (mkState (statusBus 0x80))).1 =
      .ok { busy := false, t_low := false, t_high := false, therm := false } ∧
    (∀ v : Nat, v < 256 → get_status_decode v =
      { busy := v &&& 0x01 ≠ 0, t_low := v &&& 0x01 ≠ 0,
        t_high := v &&& 0x01 ≠ 0, therm := v &&& 0x01 ≠ 0 }) := by
  refine ⟨rfl, by decide, rfl, ?_⟩
  decide

/-! ## C2 -/

/-- C2: the claim says construction writes the default configuration
(rate 125mHz, resolution 12-bit) to the device, "in particular the
configuration-register and conversion-rate-register writes for the
default rate/resolution actually occur on the bus".  In the code,
`__init__` first caches `odr = 0x01` and `resolution = 0x0c` and then
calls `enable(self.odr, self.resolution)`, which short-circuits on the
equal cached values and issues no bus traffic at all: the complete
construction trace contains no conversion-rate write and consists only
of the threshold writes, the interrupt and timeout read-modify-writes,
and the two therm reads. -/
theorem claim2_init_skips_default_configuration_writes :
    constructionTrace goodBus = some
      [Txn.write REG_LOW_LIMIT_L 0, Txn.write REG_LOW_LIMIT_H 1,
       Txn.write REG_HIGH_LIMIT_L 0, Txn.write REG_HIGH_LIMIT_H 50,
       Txn.read REG_CONFIGURATION, Txn.write REG_CONFIGURATION 0,
       Txn.read REG_SMBUS_TIMEOUT, Txn.write REG_SMBUS_TIMEOUT 0x40,
       Txn.read REG_THERM, Txn.read REG_THERM_HYSTERESIS] ∧
    (constructionTrace goodBus).map
      (fun tr => tr.any (fun t => t.writesTo REG_CONV_RATE)) = some false := by
  constructor
  · rfl
  · rfl

/-! ## C3 -/

/-- C3 counterexample: the claim says a bus-start failure
(`PeripheralError`) during construction is propagated and no driver
instance is returned.  On a bus whose `start()` fails but whose
transactions succeed, construction nevertheless completes and returns an
instance: `__init__` catches the `PeripheralError` and only prints it. -/
theorem claim3_counterexample_start_failure_swallowed :
    (STTS751_init startFailBus).toOption.isSome = true := by
  rfl

/-! ## C4 -/

/-- C4: the claim says `set_event_interrupt` and `set_timeout` write back
a value differing from the value read only in bit 6.  The enable path
uses the seven-digit literal `0b0111111` (= 0x3F), which also clears
bit 7: reading `0xC0` and enabling writes back `0x00`, changing bit 7 as
well, in both operations. -/
theorem claim4_enable_mask_also_clears_bit7 :
    (set_event_interrupt (mkState busC0) true).2.trace =
      [Txn.read REG_CONFIGURATION, Txn.write REG_CONFIGURATION 0x00] ∧
    (set_event_interrupt (mkState busC0) true).2.bus.regs REG_CONFIGURATION = 0x00 ∧
    (set_timeout (mkState busC0) true).2.trace =
      [Txn.read REG_SMBUS_TIMEOUT, Txn.write REG_SMBUS_TIMEOUT 0x00] ∧
    ((0xC0 : Nat) ^^^ 0x00) &&& 0x80 ≠ 0 := by
  refine ⟨rfl, rfl, rfl, by decide⟩

/-! ## C7: the forbidden-combination invariant -/

/-- The cached rate/resolution pair avoids the three combinations the
device cannot sustain (16Hz+12-bit, 32Hz+12-bit, 32Hz+11-bit). -/
def notForbidden (o r : Nat) : Prop :=
  ¬(o = ODR_16Hz ∧ r = STTS751_RES_12) ∧
  ¬(o = ODR_32Hz ∧ r = STTS751_RES_12) ∧
  ¬(o = ODR_32Hz ∧ r = STTS751_RES_11)

theorem notForbidden_off (x : Nat) : notForbidden ODR_OFF x := by
  refine ⟨fun hx => ?_, fun hx => ?_, fun hx => ?_⟩ <;>
    simpa [ODR_OFF, ODR_16Hz, ODR_32Hz] using hx.1

theorem notForbidden_of_rateRes_eq {d1 d2 : Drv} (h : rateRes d1 = rateRes d2)
    (hn : notForbidden d2.odr d2.resolution) : notForbidden d1.odr d1.resolution := by
  have h1 : d1.odr = d2.odr := congrArg Prod.fst h
  have h2 : d1.resolution = d2.resolution := congrArg Prod.snd h
  rw [h1, h2]
  exact hn

theorem enable_notForbidden (s : S) (r ρ : Nat)
    (h : notForbidden s.drv.odr s.drv.resolution) :
    notForbidden ((enable s r ρ).2).drv.odr ((enable s r ρ).2).drv.resolution := by
  unfold enable
  split_ifs with hnin hshort h16 h32
  any_goals exact h
  rcases hsr : set_resolution s ρ with ⟨b1, s1⟩
  have d1 := set_resolution_drv s ρ
  rw [hsr] at d1
  have d1' : s1.drv = s.drv := d1
  cases b1 with
  | false => simpa [d1'] using h
  | true =>
    dsimp only
    rcases hso : set_odr s1 r with ⟨b2, s2⟩
    have d2 := set_odr_drv s1 r
    rw [hso] at d2
    have d2' : s2.drv = s.drv := d2.trans d1'
    cases b2 with
    | false => simpa [d2'] using h
    | true =>
      exact ⟨h16, fun hx => h32 ⟨hx.1, Or.inl hx.2⟩, fun hx => h32 ⟨hx.1, Or.inr hx.2⟩⟩

theorem disable_notForbidden (s : S)
    (h : notForbidden s.drv.odr s.drv.resolution) :
    notForbidden ((disable s).2).drv.odr ((disable s).2).drv.resolution := by
  unfold disable
  split_ifs with hoff
  · exact h
  · rcases hso : set_odr s ODR_OFF with ⟨b, s1⟩
    have d1 := set_odr_drv s ODR_OFF
    rw [hso] at d1
    have d1' : s1.drv = s.drv := d1
    cases b with
    | false => simpa [d1'] using h
    | true => exact notForbidden_off _

theorem init_rateRes (bus : Bus) (s : S) (h : STTS751_init bus = .ok s) :
    rateRes s.drv = (ODR_125mHz, STTS751_RES_12) := by
  unfold STTS751_init at h
  dsimp only at h
  rw [show enable (mkState bus) (mkState bus).drv.odr (mkState bus).drv.resolution
        = (.ok true, mkState bus) from rfl] at h
  dsimp only at h
  rcases h1 : set_low_temp_threshold (mkState bus) (mkState bus).drv.low_th with ⟨r1, s1⟩
  rw [h1] at h
  have d1 := set_low_temp_threshold_rateRes (mkState bus) (mkState bus).drv.low_th
  rw [h1] at d1
  have d1' : rateRes s1.drv = (ODR_125mHz, STTS751_RES_12) := d1
  cases r1 with
  | error e => exact absurd h (by simp)
  | ok u1 =>
  dsimp only at h
  rcases h2 : set_high_temp_threshold s1 s1.drv.high_th with ⟨r2, s2⟩
  rw [h2] at h
  have d2 := set_high_temp_threshold_rateRes s1 s1.drv.high_th
  rw [h2] at d2
  have d2' : rateRes s2.drv = (ODR_125mHz, STTS751_RES_12) := by
    have e2 : rateRes s2.drv = rateRes s1.drv := d2
    rw [e2, d1']
  cases r2 with
  | error e => exact absurd h (by simp)
  | ok u2 =>
  dsimp only at h
  rcases h3 : set_event_interrupt s2 true with ⟨r3, s3⟩
  rw [h3] at h
  have d3 := set_event_interrupt_rateRes s2 true
  rw [h3] at d3
  have d3' : rateRes s3.drv = (ODR_125mHz, STTS751_RES_12) := by
    have e3 : rateRes s3.drv = rateRes s2.drv := d3
    rw [e3, d2']
  cases r3 with
  | error e => exact absurd h (by simp)
  | ok u3 =>
  dsimp only at h
  rcases h4 : set_timeout s3 false with ⟨r4, s4⟩
  rw [h4] at h
  have d4 := set_timeout_rateRes s3 false
  rw [h4] at d4
  have d4' : rateRes s4.drv = (ODR_125mHz, STTS751_RES_12) := by
    have e4 : rateRes s4.drv = rateRes s3.drv := d4
    rw [e4, d3']
  cases r4 with
  | error e => exact absurd h (by simp)
  | ok u4 =>
  dsimp only at h
  rcases h5 : readReg s4 REG_THERM with ⟨r5, s5⟩
  rw [h5] at h
  have d5 := readReg_drv s4 REG_THERM
  rw [h5] at d5
  have d5' : rateRes s5.drv = (ODR_125mHz, STTS751_RES_12) := by
    have e5 : s5.drv = s4.drv := d5
    rw [congrArg rateRes e5, d4']
  cases r5 with
  | error e => exact absurd h (by simp)
  | ok t =>
  dsimp only at h
  rcases h6 : readReg { s5 with drv := { s5.drv with therm_limit := (t : Int) } }
      REG_THERM_HYSTERESIS with ⟨r6, s6⟩
  rw [h6] at h
  have d6 := readReg_drv { s5 with drv := { s5.drv with therm_limit := (t : Int) } }
      REG_THERM_HYSTERESIS
  rw [h6] at d6
  have d6' : rateRes s6.drv = (ODR_125mHz, STTS751_RES_12) := by
    have e6 : s6.drv = { s5.drv with therm_limit := (t : Int) } := d6
    rw [congrArg rateRes e6]
    have e7 : rateRes { s5.drv with therm_limit := (t : Int) } = rateRes s5.drv := rfl
    rw [e7, d5']
  cases r6 with
  | error e => exact absurd h (by simp)
  | ok th =>
  dsimp only at h
  have hs : s = { s6 with drv := { s6.drv with therm_hyst_limit := (th : Int) } } := by
    cases h
    rfl
  rw [hs]
  simpa [rateRes] using d6'

/-- One public driver operation, as a relation between the state before
and the state after the call (whatever the call returned or raised). -/
inductive Step : S → S → Prop where
  | ofEnable (s : S) (r ρ : Nat) : Step s ((enable s r ρ).2)
  | ofDisable (s : S) : Step s ((disable s).2)
  | ofGetStatus (s : S) : Step s ((get_status s).2)
  | ofGetSensorId (s : S) : Step s ((get_sensor_id s).2)
  | ofGetTemp (s : S) (raw : Bool) : Step s ((get_temp s raw).2)
  | ofSetLow (s : S) (level : Int) : Step s ((set_low_temp_threshold s level).2)
  | ofSetHigh (s : S) (level : Int) : Step s ((set_high_temp_threshold s level).2)
  | ofSetEventInterrupt (s : S) (en : Bool) : Step s ((set_event_interrupt s en).2)
  | ofSetThermLimit (s : S) (level : Int) : Step s ((set_therm_limit s level).2)
  | ofSetThermHysteresis (s : S) (level : Int) : Step s ((set_therm_hysteresis_limit s level).2)
  | ofSetTimeout (s : S) (en : Bool) : Step s ((set_timeout s en).2)

/-- States reachable from a freshly constructed driver by any sequence of
public operations. -/
inductive Reachable : S → Prop where
  | init (bus : Bus) (s : S) : STTS751_init bus = .ok s → Reachable s
  | step (s s' : S) : Reachable s → Step s s' → Reachable s'

/-- C7: in every state reachable from a freshly constructed driver, the
cached rate/resolution pair is never one of the three forbidden
combinations 16Hz+12-bit, 32Hz+12-bit, 32Hz+11-bit. -/
theorem claim7_reachable_not_forbidden (s : S) (h : Reachable s) :
    notForbidden s.drv.odr s.drv.resolution := by
  induction h with
  | init bus s0 hinit =>
    have hr := init_rateRes bus s0 hinit
    have h1 : s0.drv.odr = ODR_125mHz := congrArg Prod.fst hr
    have h2 : s0.drv.resolution = STTS751_RES_12 := congrArg Prod.snd hr
    rw [h1, h2]
    exact ⟨by decide, by decide, by decide⟩
  | step s0 s' hr hstep ih =>
    cases hstep with
    | ofEnable r ρ => exact enable_notForbidden s0 r ρ ih
    | ofDisable => exact disable_notForbidden s0 ih
    | ofGetStatus =>
      exact notForbidden_of_rateRes_eq (congrArg rateRes (get_status_drv s0)) ih
    | ofGetSensorId =>
      exact notForbidden_of_rateRes_eq (congrArg rateRes (get_sensor_id_drv s0)) ih
    | ofGetTemp raw =>
      exact notForbidden_of_rateRes_eq (congrArg rateRes (get_temp_drv s0 raw)) ih
    | ofSetLow level =>
      exact notForbidden_of_rateRes_eq (set_low_temp_threshold_rateRes s0 level) ih
    | ofSetHigh level =>
      exact notForbidden_of_rateRes_eq (set_high_temp_threshold_rateRes s0 level) ih
    | ofSetEventInterrupt en =>
      exact notForbidden_of_rateRes_eq (set_event_interrupt_rateRes s0 en) ih
    | ofSetThermLimit level =>
      exact notForbidden_of_rateRes_eq (set_therm_limit_rateRes s0 level) ih
    | ofSetThermHysteresis level =>
      exact notForbidden_of_rateRes_eq (set_therm_hysteresis_limit_rateRes s0 level) ih
    | ofSetTimeout en =>
      exact notForbidden_of_rateRes_eq (set_timeout_rateRes s0 en) ih

/-- C7 witness: the freshly constructed state over the working bus is
reachable and satisfies the invariant. -/
theorem claim7_witness : notForbidden s_init.drv.odr s_init.drv.resolution :=
  claim7_reachable_not_forbidden s_init (Reachable.init goodBus s_init rfl)

/-! ## C5: idempotence of configure and disable -/

/-- C5: `enable` called with the cached rate and resolution returns
success and touches neither the bus nor the state; `disable` with the
cached rate already OFF likewise; consequently a second identical call
right after a successful `enable`, and a second `disable` right after a
successful `disable`, issue no bus traffic and leave the state fixed. -/
theorem claim5_configure_disable_idempotent :
    (∀ (s : S) (r ρ : Nat), r ∈ ODR_AVAILABLE → r = s.drv.odr → ρ = s.drv.resolution →
        enable s r ρ = (.ok true, s)) ∧
    (∀ s : S, s.drv.odr = ODR_OFF → disable s = (true, s)) ∧
    (∀ (s s' : S) (r ρ : Nat), enable s r ρ = (.ok true, s') →
        enable s' r ρ = (.ok true, s')) ∧
    (∀ s s' : S, disable s = (true, s') → disable s' = (true, s')) := by
  refine ⟨?_, ?_, ?_, ?_⟩
  · intro s r ρ h1 h2 h3
    unfold enable
    rw [if_neg (not_not_intro h1), if_pos ⟨h2, h3⟩]
  · intro s h
    unfold disable
    rw [if_pos h]
  · intro s s' r ρ h
    unfold enable at h
    split_ifs at h with hnin hshort h16 h32
    · have hs : s = s' := congrArg Prod.snd h
      subst hs
      unfold enable
      rw [if_neg (not_not_intro hnin), if_pos hshort]
    · exact absurd h (by simp)
    · exact absurd h (by simp)
    · rcases hsr : set_resolution s ρ with ⟨b1, s1⟩
      rw [hsr] at h
      cases b1 with
      | false => exact absurd h (by simp)
      | true =>
        dsimp only at h
        rcases hso : set_odr s1 r with ⟨b2, s2⟩
        rw [hso] at h
        cases b2 with
        | false => exact absurd h (by simp)
        | true =>
          dsimp only at h
          have hs : { s2 with drv :=
              { s2.drv with odr := r, resolution := ρ } } = s' := congrArg Prod.snd h
          subst hs
          unfold enable
          rw [if_neg (not_not_intro hnin), if_pos ⟨rfl, rfl⟩]
    · exact absurd h (by simp)
  · intro s s' h
    unfold disable at h
    split_ifs at h with hoff
    · have hs : s = s' := congrArg Prod.snd h
      subst hs
      unfold disable
      rw [if_pos hoff]
    · rcases hso : set_odr s ODR_OFF with ⟨b, s1⟩
      rw [hso] at h
      cases b with
      | false => exact absurd h (by simp)
      | true =>
        dsimp only at h
        have hs : { s1 with drv := { s1.drv with odr := ODR_OFF } } = s' :=
          congrArg Prod.snd h
        subst hs
        unfold disable
        rw [if_pos rfl]

/-- C5 witness: the fresh state caches 125mHz/12-bit, so configuring with
exactly those values succeeds with no bus transaction. -/
theorem claim5_witness :
    enable (mkState goodBus) ODR_125mHz STTS751_RES_12 = (.ok true, mkState goodBus) :=
  claim5_configure_disable_idempotent.1 (mkState goodBus) ODR_125mHz STTS751_RES_12
    (by decide) rfl rfl

/-! ## C6: forbidden combinations and invalid rates rejected -/

/-- C6: from any state whose cached pair is not itself forbidden,
`enable(16Hz, 12-bit)`, `enable(32Hz, 11-bit)` and `enable(32Hz, 12-bit)`
each raise `ValueError` with the state (cache, bus, trace) unchanged, and
so does `enable` with any rate code outside the twelve enumerated
values. -/
theorem claim6_forbidden_combinations_rejected (s : S)
    (h : notForbidden s.drv.odr s.drv.resolution) :
    enable s ODR_16Hz STTS751_RES_12 = (.error .valueError, s) ∧
    enable s ODR_32Hz STTS751_RES_11 = (.error .valueError, s) ∧
    enable s ODR_32Hz STTS751_RES_12 = (.error .valueError, s) ∧
    (∀ r ρ : Nat, r ∉ ODR_AVAILABLE → enable s r ρ = (.error .valueError, s)) := by
  refine ⟨?_, ?_, ?_, ?_⟩
  · unfold enable
    rw [if_neg (not_not_intro (by decide : ODR_16Hz ∈ ODR_AVAILABLE))]
    rw [if_neg (fun hx => h.1 ⟨hx.1.symm, hx.2.symm⟩)]
    rw [if_pos ⟨rfl, rfl⟩]
  · unfold enable
    rw [if_neg (not_not_intro (by decide : ODR_32Hz ∈ ODR_AVAILABLE))]
    rw [if_neg (fun hx => h.2.2 ⟨hx.1.symm, hx.2.symm⟩)]
    rw [if_neg (by decide : ¬(ODR_32Hz = ODR_16Hz ∧ STTS751_RES_11 = STTS751_RES_12))]
    rw [if_pos ⟨rfl, Or.inr rfl⟩]
  · unfold enable
    rw [if_neg (not_not_intro (by decide : ODR_32Hz ∈ ODR_AVAILABLE))]
    rw [if_neg (fun hx => h.2.1 ⟨hx.1.symm, hx.2.symm⟩)]
    rw [if_neg (by decide : ¬(ODR_32Hz = ODR_16Hz ∧ STTS751_RES_12 = STTS751_RES_12))]
    rw [if_pos ⟨rfl, Or.inl rfl⟩]
  · intro r ρ hr
    unfold enable
    rw [if_pos hr]

/-- C6 witness: the three forbidden calls on the freshly initialized
cache (125mHz/12-bit) all fail with `ValueError` and leave the state
untouched. -/
theorem claim6_witness :
    enable (mkState goodBus) ODR_16Hz STTS751_RES_12 =
      (.error .valueError, mkState goodBus) :=
  (claim6_forbidden_combinations_rejected (mkState goodBus)
    ⟨by decide, by decide, by decide⟩).1

/-! ## C8: temperature decoding -/



/-- The spec's reading of the 16-bit raw value: two's-complement. -/
def twosComplement16 (v : Nat) : Int :=
  if v < 0x8000 then (v : Int) else (v : Int) - 0x10000

theorem tmp_signed_eq (v : Nat) (hv : v < 65536) : tmp_signed v = twosComplement16 v := by
  unfold tmp_signed twosComplement16
  have hp : (2 : Nat) ^ 15 = 32768 := by norm_num
  have h1 : v &&& 32768 = (v.testBit 15).toNat * 32768 := by
    have h := Nat.and_two_pow v 15
    rwa [hp] at h
  have h2 : (32767 : Nat) &&& v = v % 32768 := by
    have h := Nat.and_pow_two_sub_one_eq_mod v 15
    rw [hp] at h
    rw [Nat.land_comm]
    simpa using h
  have htb : v.testBit 15 = decide (v / 2 ^ 15 % 2 = 1) := Nat.testBit_to_div_mod
  rw [hp] at htb
  rcases Nat.lt_or_ge v 32768 with hc | hc
  · have ht : v.testBit 15 = false := by
      rw [htb]
      simp only [decide_eq_false_iff_not]
      omega
    rw [h1, ht]
    simp only [Bool.toNat_false, Nat.zero_mul, Nat.zero_shiftRight, ne_eq]
    rw [if_neg (by simp)]
    rw [if_pos hc]
  · have ht : v.testBit 15 = true := by
      rw [htb]
      simp only [decide_eq_true_eq]
      omega
    rw [h1, h2, ht]
    simp only [Bool.toNat_true, Nat.one_mul]
    rw [show (32768 : Nat) >>> 15 = 1 from by rw [Nat.shiftRight_eq_div_pow]]
    rw [if_pos (by norm_num : (1 : Nat) ≠ 0)]
    rw [if_neg (by omega : ¬ v < 32768)]
    push_cast
    omega

/-- C8: `get_temp` combines the two temperature bytes as
`high << 8 | low` (for byte values the `+` used by the code coincides
with `|`); with `raw` it returns that 16-bit value verbatim (bytes
0x19/0x00 give 0x1900), and without `raw` it interprets the value as
two's-complement 16-bit signed and divides by 256.0, so bytes 0x19/0x00
give 25.0 and bytes 0xE7/0x00 give -25.0. -/
theorem claim8_get_temp_decoding :
    (∀ h l : Nat, (get_temp (mkState (tempBus h l)) true).1 = .ok (.raw ((h <<< 8) + l))) ∧
    (∀ h l : Nat, h < 256 → l < 256 →
        (get_temp (mkState (tempBus h l)) false).1 =
          .ok (.celsius ((twosComplement16 ((h <<< 8) + l) : ℚ) / 256))) ∧
    (get_temp (mkState (tempBus 0x19 0x00)) true).1 = .ok (.raw 0x1900) ∧
    (get_temp (mkState (tempBus 0x19 0x00)) false).1 = .ok (.celsius 25) ∧
    (get_temp (mkState (tempBus 0xE7 0x00)) false).1 = .ok (.celsius (-25)) ∧
    (∀ h l : Nat, l < 256 → (h <<< 8) + l = ((h <<< 8) ||| l)) := by
  refine ⟨?_, ?_, ?_, ?_, ?_, ?_⟩
  · intro h l
    rfl
  · intro h l hh hl
    have hred : (get_temp (mkState (tempBus h l)) false).1 =
        .ok (.celsius ((tmp_signed ((h <<< 8) + l) : ℚ) / 256)) := rfl
    rw [hred]
    have h28 : (2 : Nat) ^ 8 = 256 := by norm_num
    have hb : (h <<< 8) + l < 65536 := by
      rw [Nat.shiftLeft_eq, h28]
      omega
    rw [tmp_signed_eq _ hb]
  · rfl
  · have hred : (get_temp (mkState (tempBus 0x19 0x00)) false).1 =
        .ok (.celsius ((tmp_signed 0x1900 : ℚ) / 256)) := rfl
    rw [hred]
    norm_num [tmp_signed]
    rw [show ((6400 : Nat) &&& 32768) >>> 15 = 0 from by decide]
    norm_num
  · have hred : (get_temp (mkState (tempBus 0xE7 0x00)) false).1 =
        .ok (.celsius ((tmp_signed 0xE700 : ℚ) / 256)) := rfl
    rw [hred]
    norm_num [tmp_signed]
    rw [show ((59136 : Nat) &&& 32768) >>> 15 = 1 from by decide]
    rw [show (32767 : Nat) &&& 59136 = 26368 from by decide]
    norm_num
  · intro h l hl
    rw [Nat.shiftLeft_eq, Nat.mul_comm]
    exact Nat.mul_add_lt_is_or (by norm_num at hl ⊢; omega) h


/-- C8 witness for the quantified decoding conjunct, at bytes 0x19/0x00. -/
theorem claim8_witness :
    (get_temp (mkState (tempBus 0x19 0x00)) false).1 =
      .ok (.celsius ((twosComplement16 ((0x19 <<< 8) + 0x00) : ℚ) / 256)) :=
  claim8_get_temp_decoding.2.1 0x19 0x00 (by norm_num) (by norm_num)

/-! ## C9: threshold encode/decode round-trip -/

theorem mul256_and_FF00 : ∀ m : Nat, m < 256 → (256 * m) &&& 0xFF00 = 256 * m := by decide

theorem emod256_facts (level : Int) :
    0 ≤ level % 256 ∧ level % 256 < 256 ∧ (level * 256) % 65536 = 256 * (level % 256) := by
  refine ⟨Int.emod_nonneg level (by norm_num), Int.emod_lt_of_pos level (by norm_num), ?_⟩
  rw [Int.mul_comm level 256, show (65536 : Int) = 256 * 256 from by norm_num,
    Int.mul_emod_mul_of_pos _ _ (by norm_num : (0 : Int) < 256)]

theorem threshold_rl_eq (level : Int) : threshold_rl (level * 256) = 0 := by
  unfold threshold_rl pyAnd
  have h255 : (255 : Nat) = 2 ^ 8 - 1 := by norm_num
  rw [h255, Nat.and_pow_two_sub_one_eq_mod]
  obtain ⟨hge, hlt, hm⟩ := emod256_facts level
  rw [hm]
  have h28 : (2 : Nat) ^ 8 = 256 := by norm_num
  rw [h28]
  omega

theorem threshold_rh_eq (level : Int) :
    threshold_rh (level * 256) = (level % 256).toNat := by
  unfold threshold_rh pyAnd
  obtain ⟨hge, hlt, hm⟩ := emod256_facts level
  rw [hm]
  have hmn : ((256 : Int) * (level % 256)).toNat = 256 * (level % 256).toNat := by omega
  rw [hmn]
  rw [mul256_and_FF00 _ (by omega)]
  rw [Nat.shiftRight_eq_div_pow]
  have h28 : (2 : Nat) ^ 8 = 256 := by norm_num
  rw [h28]
  omega

theorem threshold_roundtrip_int (level : Int) (h1 : -127 ≤ level) (h2 : level ≤ 127) :
    tmp_signed ((threshold_rh (level * 256) <<< 8) + threshold_rl (level * 256)) =
      256 * level := by
  rw [threshold_rl_eq, threshold_rh_eq]
  rw [Nat.shiftLeft_eq]
  have h28 : (2 : Nat) ^ 8 = 256 := by norm_num
  rw [h28, Nat.add_zero]
  obtain ⟨hge, hlt, hm⟩ := emod256_facts level
  rw [tmp_signed_eq _ (by omega)]
  unfold twosComplement16
  rcases le_or_lt 0 level with hp | hn
  · rw [if_pos (by omega)]
    omega
  · rw [if_neg (by omega)]
    omega


theorem writeReg_ok (s : S) (addr d : Nat) (hd : d ≤ 255)
    (hf : s.bus.failWrite addr = false) :
    writeReg s addr (d : Int) =
      (.ok (), { drv := s.drv, bus := s.bus.store addr d,
                 trace := s.trace ++ [Txn.write addr d] }) := by
  unfold writeReg
  rw [if_neg (show ¬((d : Int) < 0 ∨ 255 < (d : Int)) from by omega)]
  simp only [hf, Bool.false_eq_true, if_false, Int.toNat_natCast]

theorem readReg_ok (s : S) (addr : Nat) (hf : s.bus.failRead addr = false) :
    readReg s addr =
      (.ok (s.bus.regs addr), { s with trace := s.trace ++ [Txn.read addr] }) := by
  unfold readReg
  simp only [hf, Bool.false_eq_true, if_false]

theorem set_low_trace (level : Int) :
    (set_low_temp_threshold (mkState goodBus) level).2.trace =
      [Txn.write REG_LOW_LIMIT_L (threshold_rl (level * 256)),
       Txn.write REG_LOW_LIMIT_H (threshold_rh (level * 256))] := by
  unfold set_low_temp_threshold
  dsimp only
  obtain ⟨hge, hlt, hm⟩ := emod256_facts level
  rw [threshold_rl_eq, threshold_rh_eq]
  rw [writeReg_ok _ _ _ (by norm_num) rfl]
  dsimp only
  rw [writeReg_ok _ _ _ (by omega) rfl]
  rfl

theorem set_high_trace (level : Int) :
    (set_high_temp_threshold (mkState goodBus) level).2.trace =
      [Txn.write REG_HIGH_LIMIT_L (threshold_rl (level * 256)),
       Txn.write REG_HIGH_LIMIT_H (threshold_rh (level * 256))] := by
  unfold set_high_temp_threshold
  dsimp only
  obtain ⟨hge, hlt, hm⟩ := emod256_facts level
  rw [threshold_rl_eq, threshold_rh_eq]
  rw [writeReg_ok _ _ _ (by norm_num) rfl]
  dsimp only
  rw [writeReg_ok _ _ _ (by omega) rfl]
  rfl

/-- C9: for every integer threshold level in [-127, 127], encoding as
the setters do (multiply by 256, split into high/low bytes with
`threshold_rh`/`threshold_rl`) and decoding the byte pair as a signed
Q8.8 value (two's-complement 16-bit combine, divided by 256) returns the
original level; and the two setters write exactly those bytes (low
register first) on the bus. -/
theorem claim9_threshold_roundtrip (level : Int) (h1 : -127 ≤ level) (h2 : level ≤ 127) :
    ((tmp_signed ((threshold_rh (level * 256) <<< 8) + threshold_rl (level * 256)) : ℚ) / 256
        = (level : ℚ)) ∧
    (set_low_temp_threshold (mkState goodBus) level).2.trace =
      [Txn.write REG_LOW_LIMIT_L (threshold_rl (level * 256)),
       Txn.write REG_LOW_LIMIT_H (threshold_rh (level * 256))] ∧
    (set_high_temp_threshold (mkState goodBus) level).2.trace =
      [Txn.write REG_HIGH_LIMIT_L (threshold_rl (level * 256)),
       Txn.write REG_HIGH_LIMIT_H (threshold_rh (level * 256))] := by
  refine ⟨?_, set_low_trace level, set_high_trace level⟩
  rw [threshold_roundtrip_int level h1 h2]
  push_cast
  ring_nf


/-- C9 witness: the round-trip at the concrete threshold -25 returns
-25. -/
theorem claim9_witness :
    (tmp_signed ((threshold_rh ((-25) * 256) <<< 8) + threshold_rl ((-25) * 256)) : ℚ) / 256
      = ((-25 : Int) : ℚ) :=
  (claim9_threshold_roundtrip (-25) (by norm_num) (by norm_num)).1

/-! ## C3 (amended) and C10 -/

theorem threshold_rl_le (x : Int) : threshold_rl x ≤ 255 := Nat.and_le_right

theorem threshold_rh_le (x : Int) : threshold_rh x ≤ 255 := by
  unfold threshold_rh pyAnd
  rw [Nat.shiftRight_eq_div_pow]
  have h := Nat.and_le_right (n := (x % 65536).toNat) (m := 0xFF00)
  have h28 : (2 : Nat) ^ 8 = 256 := by norm_num
  rw [h28]
  omega

/-- A bus in a benign condition: byte-valued registers, no failing
transactions. -/
def goodState (s : S) : Prop :=
  (∀ a, s.bus.regs a ≤ 255) ∧ (∀ a, s.bus.failRead a = false) ∧
  (∀ a, s.bus.failWrite a = false)

theorem writeReg_ok_good (s : S) (addr d : Nat) (hg : goodState s) (hd : d ≤ 255) :
    ∃ s', writeReg s addr (d : Int) = (.ok (), s') ∧ goodState s' := by
  refine ⟨_, writeReg_ok s addr d hd (hg.2.2 addr), ?_⟩
  refine ⟨?_, hg.2.1, hg.2.2⟩
  intro a
  by_cases ha : a = addr
  · simp [Bus.store, ha, hd]
  · simpa [Bus.store, ha] using hg.1 a

theorem readReg_ok_good (s : S) (addr : Nat) (hg : goodState s) :
    ∃ v s', readReg s addr = (.ok v, s') ∧ v ≤ 255 ∧ goodState s' := by
  refine ⟨_, _, readReg_ok s addr (hg.2.1 addr), hg.1 addr, hg.1, hg.2.1, hg.2.2⟩

theorem set_low_ok (s : S) (level : Int) (hg : goodState s) :
    ∃ s', set_low_temp_threshold s level = (.ok (), s') ∧ goodState s' := by
  unfold set_low_temp_threshold
  dsimp only
  obtain ⟨s1, h1, hg1⟩ := writeReg_ok_good s REG_LOW_LIMIT_L (threshold_rl (level * 256)) hg
    (threshold_rl_le _)
  rw [h1]
  dsimp only
  obtain ⟨s2, h2, hg2⟩ := writeReg_ok_good s1 REG_LOW_LIMIT_H (threshold_rh (level * 256)) hg1
    (threshold_rh_le _)
  rw [h2]
  exact ⟨_, rfl, hg2.1, hg2.2.1, hg2.2.2⟩


theorem set_high_ok (s : S) (level : Int) (hg : goodState s) :
    ∃ s', set_high_temp_threshold s level = (.ok (), s') ∧ goodState s' := by
  unfold set_high_temp_threshold
  dsimp only
  obtain ⟨s1, h1, hg1⟩ := writeReg_ok_good s REG_HIGH_LIMIT_L (threshold_rl (level * 256)) hg
    (threshold_rl_le _)
  rw [h1]
  dsimp only
  obtain ⟨s2, h2, hg2⟩ := writeReg_ok_good s1 REG_HIGH_LIMIT_H (threshold_rh (level * 256)) hg1
    (threshold_rh_le _)
  rw [h2]
  exact ⟨_, rfl, hg2.1, hg2.2.1, hg2.2.2⟩

theorem set_event_interrupt_ok (s : S) (en : Bool) (hg : goodState s) :
    ∃ s', set_event_interrupt s en = (.ok (), s') ∧ goodState s' := by
  unfold set_event_interrupt
  obtain ⟨v, s1, h1, hv, hg1⟩ := readReg_ok_good s REG_CONFIGURATION hg
  rw [h1]
  dsimp only
  have hb : (if en then v &&& 0b0111111 else v ||| 0b1000000) ≤ 255 := by
    have hand := Nat.and_le_right (n := v) (m := 63)
    have hor : v ||| 64 < 2 ^ 8 := Nat.or_lt_two_pow (by omega) (by norm_num)
    cases en with
    | false => simpa using (by omega : v ||| 64 ≤ 255)
    | true => simpa using (by omega : v &&& 63 ≤ 255)
  obtain ⟨s2, h2, hg2⟩ := writeReg_ok_good s1 REG_CONFIGURATION _ hg1 hb
  rw [h2]
  exact ⟨_, rfl, hg2.1, hg2.2.1, hg2.2.2⟩

theorem set_timeout_ok (s : S) (en : Bool) (hg : goodState s) :
    ∃ s', set_timeout s en = (.ok (), s') ∧ goodState s' := by
  unfold set_timeout
  obtain ⟨v, s1, h1, hv, hg1⟩ := readReg_ok_good s REG_SMBUS_TIMEOUT hg
  rw [h1]
  dsimp only
  have hb : (if en then v &&& 0b0111111 else v ||| 0b1000000) ≤ 255 := by
    have hand := Nat.and_le_right (n := v) (m := 63)
    have hor : v ||| 64 < 2 ^ 8 := Nat.or_lt_two_pow (by omega) (by norm_num)
    cases en with
    | false => simpa using (by omega : v ||| 64 ≤ 255)
    | true => simpa using (by omega : v &&& 63 ≤ 255)
  obtain ⟨s2, h2, hg2⟩ := writeReg_ok_good s1 REG_SMBUS_TIMEOUT _ hg1 hb
  rw [h2]
  exact ⟨_, rfl, hg2.1, hg2.2.1, hg2.2.2⟩

theorem STTS751_init_ok (b : Bus) (hr : ∀ a, b.regs a ≤ 255)
    (hfr : ∀ a, b.failRead a = false) (hfw : ∀ a, b.failWrite a = false) :
    ∃ s, STTS751_init b = .ok s := by
  unfold STTS751_init
  dsimp only
  rw [show enable (mkState b) (mkState b).drv.odr (mkState b).drv.resolution
        = (.ok true, mkState b) from rfl]
  dsimp only
  have hg0 : goodState (mkState b) := ⟨hr, hfr, hfw⟩
  obtain ⟨s1, h1, hg1⟩ := set_low_ok (mkState b) ((mkState b).drv.low_th) hg0
  rw [h1]
  dsimp only
  obtain ⟨s2, h2, hg2⟩ := set_high_ok s1 s1.drv.high_th hg1
  rw [h2]
  dsimp only
  obtain ⟨s3, h3, hg3⟩ := set_event_interrupt_ok s2 true hg2
  rw [h3]
  dsimp only
  obtain ⟨s4, h4, hg4⟩ := set_timeout_ok s3 false hg3
  rw [h4]
  dsimp only
  obtain ⟨v5, s5, h5, hv5, hg5⟩ := readReg_ok_good s4 REG_THERM hg4
  rw [h5]
  dsimp only
  obtain ⟨v6, s6, h6, hv6, hg6⟩ := readReg_ok_good
    { s5 with drv := { s5.drv with therm_limit := (v5 : Int) } } REG_THERM_HYSTERESIS hg5
  rw [h6]
  exact ⟨_, rfl⟩

theorem readReg_bus (s : S) (a : Nat) : ((readReg s a).2).bus = s.bus := by
  unfold readReg
  dsimp only
  split <;> rfl

theorem writeReg_busFlags (s : S) (a : Nat) (d : Int) :
    ((writeReg s a d).2).bus.failRead = s.bus.failRead ∧
    ((writeReg s a d).2).bus.failWrite = s.bus.failWrite := by
  unfold writeReg
  split
  · exact ⟨rfl, rfl⟩
  · dsimp only
    split
    · exact ⟨rfl, rfl⟩
    · exact ⟨rfl, rfl⟩

theorem readReg_ok_failRead (s : S) (a v : Nat) (s' : S)
    (h : readReg s a = (.ok v, s')) : s.bus.failRead a = false := by
  unfold readReg at h
  dsimp only at h
  by_cases hr : s.bus.failRead a = true
  · rw [if_pos hr] at h
    exact absurd h (by simp)
  · simpa using hr

theorem writeReg_ok_failWrite (s : S) (a : Nat) (d : Int) (u : Unit) (s' : S)
    (h : writeReg s a d = (.ok u, s')) : s.bus.failWrite a = false := by
  unfold writeReg at h
  by_cases hd : d < 0 ∨ 255 < d
  · rw [if_pos hd] at h
    exact absurd h (by simp)
  · rw [if_neg hd] at h
    dsimp only at h
    by_cases hw : s.bus.failWrite a = true
    · rw [if_pos hw] at h
      exact absurd h (by simp)
    · simpa using hw


theorem set_low_ok_flags (s : S) (l : Int) (u : Unit) (s' : S)
    (h : set_low_temp_threshold s l = (.ok u, s')) :
    (s.bus.failWrite REG_LOW_LIMIT_L = false ∧ s.bus.failWrite REG_LOW_LIMIT_H = false) ∧
    s'.bus.failRead = s.bus.failRead ∧ s'.bus.failWrite = s.bus.failWrite := by
  unfold set_low_temp_threshold at h
  dsimp only at h
  rcases h1 : writeReg s REG_LOW_LIMIT_L ((threshold_rl (l * 256) : Nat) : Int) with ⟨r1, s1⟩
  rw [h1] at h
  cases r1 with
  | error e => exact absurd h (by simp)
  | ok u1 =>
    dsimp only at h
    have hw1 := writeReg_ok_failWrite _ _ _ _ _ h1
    have hp1 := writeReg_busFlags s REG_LOW_LIMIT_L ((threshold_rl (l * 256) : Nat) : Int)
    rw [h1] at hp1
    rcases h2 : writeReg s1 REG_LOW_LIMIT_H ((threshold_rh (l * 256) : Nat) : Int) with ⟨r2, s2⟩
    rw [h2] at h
    cases r2 with
    | error e => exact absurd h (by simp)
    | ok u2 =>
      dsimp only at h
      have hw2 := writeReg_ok_failWrite _ _ _ _ _ h2
      have hp2 := writeReg_busFlags s1 REG_LOW_LIMIT_H ((threshold_rh (l * 256) : Nat) : Int)
      rw [h2] at hp2
      have hs : { s2 with drv := { s2.drv with low_th := l } } = s' := congrArg Prod.snd h
      subst hs
      exact ⟨⟨hw1, (congrFun hp1.2 REG_LOW_LIMIT_H).symm.trans hw2⟩,
        hp2.1.trans hp1.1, hp2.2.trans hp1.2⟩

theorem set_high_ok_flags (s : S) (l : Int) (u : Unit) (s' : S)
    (h : set_high_temp_threshold s l = (.ok u, s')) :
    (s.bus.failWrite REG_HIGH_LIMIT_L = false ∧ s.bus.failWrite REG_HIGH_LIMIT_H = false) ∧
    s'.bus.failRead = s.bus.failRead ∧ s'.bus.failWrite = s.bus.failWrite := by
  unfold set_high_temp_threshold at h
  dsimp only at h
  rcases h1 : writeReg s REG_HIGH_LIMIT_L ((threshold_rl (l * 256) : Nat) : Int) with ⟨r1, s1⟩
  rw [h1] at h
  cases r1 with
  | error e => exact absurd h (by simp)
  | ok u1 =>
    dsimp only at h
    have hw1 := writeReg_ok_failWrite _ _ _ _ _ h1
    have hp1 := writeReg_busFlags s REG_HIGH_LIMIT_L ((threshold_rl (l * 256) : Nat) : Int)
    rw [h1] at hp1
    rcases h2 : writeReg s1 REG_HIGH_LIMIT_H ((threshold_rh (l * 256) : Nat) : Int) with ⟨r2, s2⟩
    rw [h2] at h
    cases r2 with
    | error e => exact absurd h (by simp)
    | ok u2 =>
      dsimp only at h
      have hw2 := writeReg_ok_failWrite _ _ _ _ _ h2
      have hp2 := writeReg_busFlags s1 REG_HIGH_LIMIT_H ((threshold_rh (l * 256) : Nat) : Int)
      rw [h2] at hp2
      have hs : { s2 with drv := { s2.drv with high_th := l } } = s' := congrArg Prod.snd h
      subst hs
      exact ⟨⟨hw1, (congrFun hp1.2 REG_HIGH_LIMIT_H).symm.trans hw2⟩,
        hp2.1.trans hp1.1, hp2.2.trans hp1.2⟩

theorem set_event_interrupt_ok_flags (s : S) (en : Bool) (u : Unit) (s' : S)
    (h : set_event_interrupt s en = (.ok u, s')) :
    (s.bus.failRead REG_CONFIGURATION = false ∧ s.bus.failWrite REG_CONFIGURATION = false) ∧
    s'.bus.failRead = s.bus.failRead ∧ s'.bus.failWrite = s.bus.failWrite := by
  unfold set_event_interrupt at h
  rcases h1 : readReg s REG_CONFIGURATION with ⟨r1, s1⟩
  rw [h1] at h
  cases r1 with
  | error e => exact absurd h (by simp)
  | ok conf =>
    dsimp only at h
    have hr1 := readReg_ok_failRead _ _ _ _ h1
    have hb1 := readReg_bus s REG_CONFIGURATION
    rw [h1] at hb1
    rcases h2 : writeReg s1 REG_CONFIGURATION
        ((if en then conf &&& 0b0111111 else conf ||| 0b1000000 : Nat) : Int) with ⟨r2, s2⟩
    rw [h2] at h
    cases r2 with
    | error e => exact absurd h (by simp)
    | ok u2 =>
      dsimp only at h
      have hw2 := writeReg_ok_failWrite _ _ _ _ _ h2
      have hp2 := writeReg_busFlags s1 REG_CONFIGURATION
        ((if en then conf &&& 0b0111111 else conf ||| 0b1000000 : Nat) : Int)
      rw [h2] at hp2
      have hs : { s2 with drv := { s2.drv with int_enable := en } } = s' := congrArg Prod.snd h
      subst hs
      refine ⟨⟨hr1, ?_⟩, ?_, ?_⟩
      · rw [← congrFun (congrArg Bus.failWrite hb1) REG_CONFIGURATION]
        exact hw2
      · exact hp2.1.trans (congrArg Bus.failRead hb1)
      · exact hp2.2.trans (congrArg Bus.failWrite hb1)

theorem set_timeout_ok_flags (s : S) (en : Bool) (u : Unit) (s' : S)
    (h : set_timeout s en = (.ok u, s')) :
    (s.bus.failRead REG_SMBUS_TIMEOUT = false ∧ s.bus.failWrite REG_SMBUS_TIMEOUT = false) ∧
    s'.bus.failRead = s.bus.failRead ∧ s'.bus.failWrite = s.bus.failWrite := by
  unfold set_timeout at h
  rcases h1 : readReg s REG_SMBUS_TIMEOUT with ⟨r1, s1⟩
  rw [h1] at h
  cases r1 with
  | error e => exact absurd h (by simp)
  | ok reg =>
    dsimp only at h
    have hr1 := readReg_ok_failRead _ _ _ _ h1
    have hb1 := readReg_bus s REG_SMBUS_TIMEOUT
    rw [h1] at hb1
    rcases h2 : writeReg s1 REG_SMBUS_TIMEOUT
        ((if en then reg &&& 0b0111111 else reg ||| 0b1000000 : Nat) : Int) with ⟨r2, s2⟩
    rw [h2] at h
    cases r2 with
    | error e => exact absurd h (by simp)
    | ok u2 =>
      dsimp only at h
      have hw2 := writeReg_ok_failWrite _ _ _ _ _ h2
      have hp2 := writeReg_busFlags s1 REG_SMBUS_TIMEOUT
        ((if en then reg &&& 0b0111111 else reg ||| 0b1000000 : Nat) : Int)
      rw [h2] at hp2
      have hs : { s2 with drv := { s2.drv with timeout := en } } = s' := congrArg Prod.snd h
      subst hs
      refine ⟨⟨hr1, ?_⟩, ?_, ?_⟩
      · rw [← congrFun (congrArg Bus.failWrite hb1) REG_SMBUS_TIMEOUT]
        exact hw2
      · exact hp2.1.trans (congrArg Bus.failRead hb1)
      · exact hp2.2.trans (congrArg Bus.failWrite hb1)


theorem STTS751_init_ok_flags (b : Bus) (s : S) (h : STTS751_init b = .ok s) :
    b.failWrite REG_LOW_LIMIT_L = false ∧ b.failWrite REG_LOW_LIMIT_H = false ∧
    b.failWrite REG_HIGH_LIMIT_L = false ∧ b.failWrite REG_HIGH_LIMIT_H = false ∧
    b.failRead REG_CONFIGURATION = false ∧ b.failWrite REG_CONFIGURATION = false ∧
    b.failRead REG_SMBUS_TIMEOUT = false ∧ b.failWrite REG_SMBUS_TIMEOUT = false ∧
    b.failRead REG_THERM = false ∧ b.failRead REG_THERM_HYSTERESIS = false := by
  unfold STTS751_init at h
  dsimp only at h
  rw [show enable (mkState b) (mkState b).drv.odr (mkState b).drv.resolution
        = (.ok true, mkState b) from rfl] at h
  dsimp only at h
  rcases h1 : set_low_temp_threshold (mkState b) (mkState b).drv.low_th with ⟨r1, s1⟩
  rw [h1] at h
  cases r1 with
  | error e => exact absurd h (by simp)
  | ok u1 =>
  dsimp only at h
  have hf1 := set_low_ok_flags _ _ _ _ h1
  have e1r : s1.bus.failRead = b.failRead := hf1.2.1
  have e1w : s1.bus.failWrite = b.failWrite := hf1.2.2
  rcases h2 : set_high_temp_threshold s1 s1.drv.high_th with ⟨r2, s2⟩
  rw [h2] at h
  cases r2 with
  | error e => exact absurd h (by simp)
  | ok u2 =>
  dsimp only at h
  have hf2 := set_high_ok_flags _ _ _ _ h2
  have e2r : s2.bus.failRead = b.failRead := hf2.2.1.trans e1r
  have e2w : s2.bus.failWrite = b.failWrite := hf2.2.2.trans e1w
  rcases h3 : set_event_interrupt s2 true with ⟨r3, s3⟩
  rw [h3] at h
  cases r3 with
  | error e => exact absurd h (by simp)
  | ok u3 =>
  dsimp only at h
  have hf3 := set_event_interrupt_ok_flags _ _ _ _ h3
  have e3r : s3.bus.failRead = b.failRead := hf3.2.1.trans e2r
  have e3w : s3.bus.failWrite = b.failWrite := hf3.2.2.trans e2w
  rcases h4 : set_timeout s3 false with ⟨r4, s4⟩
  rw [h4] at h
  cases r4 with
  | error e => exact absurd h (by simp)
  | ok u4 =>
  dsimp only at h
  have hf4 := set_timeout_ok_flags _ _ _ _ h4
  have e4r : s4.bus.failRead = b.failRead := hf4.2.1.trans e3r
  have e4w : s4.bus.failWrite = b.failWrite := hf4.2.2.trans e3w
  rcases h5 : readReg s4 REG_THERM with ⟨r5, s5⟩
  rw [h5] at h
  cases r5 with
  | error e => exact absurd h (by simp)
  | ok t =>
  dsimp only at h
  have hr5 := readReg_ok_failRead _ _ _ _ h5
  have hb5 := readReg_bus s4 REG_THERM
  rw [h5] at hb5
  have e5r : s5.bus.failRead = b.failRead := (congrArg Bus.failRead hb5).trans e4r
  rcases h6 : readReg { s5 with drv := { s5.drv with therm_limit := (t : Int) } }
      REG_THERM_HYSTERESIS with ⟨r6, s6⟩
  rw [h6] at h
  cases r6 with
  | error e => exact absurd h (by simp)
  | ok th =>
  have hr6 := readReg_ok_failRead _ _ _ _ h6
  exact ⟨hf1.1.1, hf1.1.2,
    (congrFun e1w REG_HIGH_LIMIT_L).symm.trans hf2.1.1,
    (congrFun e1w REG_HIGH_LIMIT_H).symm.trans hf2.1.2,
    (congrFun e2r REG_CONFIGURATION).symm.trans hf3.1.1,
    (congrFun e2w REG_CONFIGURATION).symm.trans hf3.1.2,
    (congrFun e3r REG_SMBUS_TIMEOUT).symm.trans hf4.1.1,
    (congrFun e3w REG_SMBUS_TIMEOUT).symm.trans hf4.1.2,
    (congrFun e4r REG_THERM).symm.trans hr5,
    (congrFun e5r REG_THERM_HYSTERESIS).symm.trans hr6⟩


theorem STTS751_init_fail (b : Bus)
    (hfail : b.failWrite REG_LOW_LIMIT_L = true ∨ b.failWrite REG_LOW_LIMIT_H = true ∨
      b.failWrite REG_HIGH_LIMIT_L = true ∨ b.failWrite REG_HIGH_LIMIT_H = true ∨
      b.failRead REG_CONFIGURATION = true ∨ b.failWrite REG_CONFIGURATION = true ∨
      b.failRead REG_SMBUS_TIMEOUT = true ∨ b.failWrite REG_SMBUS_TIMEOUT = true ∨
      b.failRead REG_THERM = true ∨ b.failRead REG_THERM_HYSTERESIS = true) :
    ∀ s, STTS751_init b ≠ .ok s := by
  intro s h
  obtain ⟨f1, f2, f3, f4, f5, f6, f7, f8, f9, f10⟩ := STTS751_init_ok_flags b s h
  rcases hfail with hx | hx | hx | hx | hx | hx | hx | hx | hx | hx <;> simp_all



/-- C3 amended: a bus-start failure is caught and printed, not
propagated — construction succeeds whatever `failStart` is, as long as
the register transactions themselves work (first conjunct, which does
not constrain `failStart`); whereas a read or write failure at any of
the transactions the construction sequence performs after the
short-circuiting configure call — the four threshold writes, the
configuration-register and SMBus-timeout read-modify-writes, and the
two therm reads — is propagated and no instance is returned (second
conjunct). -/
theorem claim3_amended_construction_failures :
    (∀ b : Bus, (∀ a, b.regs a ≤ 255) → (∀ a, b.failRead a = false) →
        (∀ a, b.failWrite a = false) → ∃ s, STTS751_init b = .ok s) ∧
    (∀ b : Bus,
      b.failWrite REG_LOW_LIMIT_L = true ∨ b.failWrite REG_LOW_LIMIT_H = true ∨
        b.failWrite REG_HIGH_LIMIT_L = true ∨ b.failWrite REG_HIGH_LIMIT_H = true ∨
        b.failRead REG_CONFIGURATION = true ∨ b.failWrite REG_CONFIGURATION = true ∨
        b.failRead REG_SMBUS_TIMEOUT = true ∨ b.failWrite REG_SMBUS_TIMEOUT = true ∨
        b.failRead REG_THERM = true ∨ b.failRead REG_THERM_HYSTERESIS = true →
      ∀ s, STTS751_init b ≠ .ok s) :=
  ⟨STTS751_init_ok, STTS751_init_fail⟩

/-- C3 amended witness: a bus whose start fails still yields an
instance, and a bus whose low-limit write fails yields none. -/
theorem claim3_amended_witness :
    (∃ s, STTS751_init startFailBus = .ok s) ∧
    STTS751_init lowLimitFailBus ≠ .ok (mkState goodBus) :=
  ⟨claim3_amended_construction_failures.1 startFailBus (fun _ => Nat.zero_le 255)
      (fun _ => rfl) (fun _ => rfl),
   claim3_amended_construction_failures.2 lowLimitFailBus (Or.inl rfl) (mkState goodBus)⟩

/-- C10: `enable` validates only the rate argument — whenever the rate is
one of the twelve codes and the pair is not a forbidden combination, no
`ValueError` is raised whatever the resolution argument is (first
conjunct); and an arbitrary resolution byte is OR'd into the
configuration register (here previously holding 0x80) and stored in the
cache unvalidated (second conjunct). -/
theorem claim10_resolution_unvalidated :
    (∀ (s : S) (r ρ : Nat), r ∈ ODR_AVAILABLE →
        ¬(r = ODR_16Hz ∧ ρ = STTS751_RES_12) →
        ¬(r = ODR_32Hz ∧ (ρ = STTS751_RES_12 ∨ ρ = STTS751_RES_11)) →
        (enable s r ρ).1 ≠ .error .valueError) ∧
    (∀ ρ : Nat, ρ < 256 →
        (enable (mkState bus80) ODR_1Hz ρ).1 = .ok true ∧
        (enable (mkState bus80) ODR_1Hz ρ).2.drv.resolution = ρ ∧
        (enable (mkState bus80) ODR_1Hz ρ).2.trace.take 2 =
          [Txn.read REG_CONFIGURATION, Txn.write REG_CONFIGURATION (0x80 ||| ρ)]) := by
  constructor
  · intro s r ρ hin h16 h32
    unfold enable
    by_cases hshort : r = s.drv.odr ∧ ρ = s.drv.resolution
    · rw [if_neg (not_not_intro hin), if_pos hshort]
      simp
    · rw [if_neg (not_not_intro hin), if_neg hshort, if_neg h16, if_neg h32]
      rcases hsr : set_resolution s ρ with ⟨b1, s1⟩
      cases b1 with
      | false => simp
      | true =>
        dsimp only
        rcases hso : set_odr s1 r with ⟨b2, s2⟩
        cases b2 with
        | false => simp
        | true => simp
  · decide

/-- C10 witness: resolution byte 0xFF (not one of the four codes) is
accepted, OR'd into the configuration register and cached. -/
theorem claim10_witness :
    (enable (mkState bus80) ODR_1Hz 0xFF).1 = .ok true ∧
    (enable (mkState bus80) ODR_1Hz 0xFF).2.drv.resolution = 0xFF ∧
    (enable (mkState bus80) ODR_1Hz 0xFF).2.trace.take 2 =
      [Txn.read REG_CONFIGURATION, Txn.write REG_CONFIGURATION (0x80 ||| 0xFF)] :=
  claim10_resolution_unvalidated.2 0xFF (by norm_num)

end Stts751
